import Mathlib

/-
Verification development for the eVTOL aircraft/mission model
(src/aircraft_models.py).  The model classes are embedded shallowly:
each gpkit `setup` method becomes a Lean definition returning the list of
variables it declares and the (nested) list of constraints it builds.
Unit strings and human-readable descriptions are not modelled: the spec
treats unit arithmetic as an external, correct black box, and no claim
mentions units.  Numeric parameters are carried as rationals (magnitudes
in the source's units); expression semantics is over the reals.
-/

deriving instance DecidableEq for Except

namespace EVTOL

/-- Instance path of a model node in the composed tree.  The spec (section 3)
identifies every Variable by its owning model's tree path plus its local
symbol; paths here use the attribute names under which the source
instantiates each child model. -/
abbrev MPath := List String

/-- Qualified variable identity: owning model path plus local symbol
(spec section 3, "Variable — identity: (owning Model path, local symbol)"). -/
structure VarId where
  path : MPath
  symbol : String
deriving DecidableEq

/-- One Variable declaration inside a model's setup.  `value = some q`
models a parameter fixed at build time (the source passes a numeric value
to `Variable(...)`); `none` is a free decision variable. -/
structure VarDecl where
  symbol : String
  value : Option ℚ
deriving DecidableEq

/-- Expressions appearing in the source's constraints: variables, rational
literals, pi (from `math.pi`), sums, products, quotients and real powers
(`**` in the source). -/
inductive Expr where
  | var (v : VarId)
  | lit (q : ℚ)
  | pi
  | add (a b : Expr)
  | mul (a b : Expr)
  | div (a b : Expr)
  | pow (a : Expr) (e : ℚ)
deriving DecidableEq

/-- Relational operator of a constraint (`==`, `<=`, `>=` in the source). -/
inductive CmpOp where
  | eq
  | le
  | ge
deriving DecidableEq

/-- A single relational constraint over expressions. -/
structure Constraint where
  lhs : Expr
  cmp : CmpOp
  rhs : Expr
deriving DecidableEq

/-- A nested constraint collection.  A gpkit `setup` returns a Python list
whose elements are either single constraints or whole child models (which
are themselves lists); `CSet.group` models such an embedded list/model. -/
inductive CSet where
  | con (c : Constraint)
  | group (l : List CSet)

mutual

/-- Flattening of one nested collection into the flat constraint list
(spec glossary, "Flattening").  Modelled from the spec: the composer that
walks the tree lives in the external gpkit library, not under src/. -/
def CSet.flatten : CSet → List Constraint
  | .con c => [c]
  | .group l => flattenList l

/-- Flattening of a list of nested collections, concatenating in
declaration order (spec section 4.2 composition rule). -/
def flattenList : List CSet → List Constraint
  | [] => []
  | s :: r => s.flatten ++ flattenList r

end

/-- Real-number evaluation of an expression under an assignment of the
variables.  `**` is real exponentiation. -/
noncomputable def Expr.eval (env : VarId → ℝ) : Expr → ℝ
  | .var v => env v
  | .lit q => (q : ℝ)
  | .pi => Real.pi
  | .add a b => a.eval env + b.eval env
  | .mul a b => a.eval env * b.eval env
  | .div a b => a.eval env / b.eval env
  | .pow a e => Real.rpow (a.eval env) (e : ℝ)

/-- Meaning of a relational operator. -/
def CmpOp.holds : CmpOp → ℝ → ℝ → Prop
  | .eq, a, b => a = b
  | .le, a, b => a ≤ b
  | .ge, a, b => b ≤ a

/-- An assignment satisfies a constraint. -/
def Constraint.sat (env : VarId → ℝ) (c : Constraint) : Prop :=
  c.cmp.holds (c.lhs.eval env) (c.rhs.eval env)

/-- The qualified variables mentioned by an expression. -/
def Expr.varIds : Expr → List VarId
  | .var v => [v]
  | .lit _ => []
  | .pi => []
  | .add a b => a.varIds ++ b.varIds
  | .mul a b => a.varIds ++ b.varIds
  | .div a b => a.varIds ++ b.varIds
  | .pow a _ => a.varIds

/-- The qualified variables mentioned by a constraint. -/
def Constraint.varIds (c : Constraint) : List VarId :=
  c.lhs.varIds ++ c.rhs.varIds

/-- The top-level addends of an expression (the literal summands of a
posynomial sum, in left-to-right source order). -/
def Expr.addends : Expr → List Expr
  | .add a b => a.addends ++ b.addends
  | e => [e]

/-- A model instance in the composed tree: its instance path and the
Variables its setup declares, in declaration order. -/
structure ModelInst where
  path : MPath
  vars : List VarDecl
deriving DecidableEq

/-- The qualified names of all variables owned by a model instance. -/
def ModelInst.qnames (m : ModelInst) : List VarId :=
  m.vars.map fun d => ⟨m.path, d.symbol⟩

/-- Build-time declaration error (spec section 7 error taxonomy). -/
inductive DeclError where
  | duplicateSymbolError (path : MPath) (symbol : String)
deriving DecidableEq

/-- Helper for `declareAll`: runs the declarations in order, keeping the
set of symbols already declared under the owner path. -/
def declareGo (path : MPath) (seen : List String) :
    List VarDecl → Except DeclError Unit
  | [] => .ok ()
  | d :: rest =>
      if d.symbol ∈ seen then .error (.duplicateSymbolError path d.symbol)
      else declareGo path (d.symbol :: seen) rest

/-- Modelled from the spec: the Variable-declaration contract of the
composition engine (spec section 4.1, `declare(owner_path, symbol, ...)`)
lives in the external gpkit library and is not under src/.  Per the spec
it "fails with DuplicateSymbolError if symbol already exists under
owner_path".  `declareAll` runs a model's declaration list in source
order under that contract. -/
def declareAll (path : MPath) (ds : List VarDecl) : Except DeclError Unit :=
  declareGo path [] ds

/-- Cross-model lookup failure (spec sections 4.3 and 7). -/
inductive LookupError where
  | unresolvedVariableError
  | ambiguousVariableError
deriving DecidableEq

/-- Whether a model instance declares a local symbol. -/
def ModelInst.declares (m : ModelInst) (s : String) : Bool :=
  m.vars.any fun d => d.symbol == s

/-- Candidate models for a cross-model lookup: the explicitly referenced
models, optionally narrowed by an owner path, that declare the symbol. -/
def resolveCandidates (refs : List ModelInst) (s : String)
    (ownerHint : Option MPath) : List ModelInst :=
  (match ownerHint with
   | none => refs
   | some p => refs.filter fun m => m.path == p).filter fun m => m.declares s

/-- Modelled from the spec: `topvar` resolution (spec section 4.3) is
implemented by the external gpkit library, not under src/.  Resolution
order per the spec: (a) the model's own declared Variables; (b) the
declared Variables of the explicitly referenced objects, by symbol;
(c) fail with UnresolvedVariableError if no match exists, or
AmbiguousVariableError if more than one candidate matches and the caller
did not disambiguate by owner path. -/
def resolve (own : ModelInst) (refs : List ModelInst) (s : String)
    (ownerHint : Option MPath) : Except LookupError VarId :=
  if own.declares s then .ok ⟨own.path, s⟩
  else
    match resolveCandidates refs s ownerHint with
    | [] => .error .unresolvedVariableError
    | [m] => .ok ⟨m.path, s⟩
    | _ => .error .ambiguousVariableError

/-- Pre-solve substitution failure (spec sections 4.5 and 7). -/
inductive SubstError where
  | substitutionTargetError (v : VarId)
deriving DecidableEq

/-- One entry of a substitution table: a target Variable pinned to a
fixed value (spec section 2, "Substitution table"). -/
structure SubstEntry where
  target : VarId
  value : ℚ
deriving DecidableEq

/-- Whether a qualified variable occurs in the flattened constraint set. -/
def occursIn (flat : List Constraint) (v : VarId) : Bool :=
  flat.any fun c => decide (v ∈ c.varIds)

/-- Whether a qualified variable is declared free (no build-time value)
in the instance registry. -/
def isFreeVar (insts : List ModelInst) (v : VarId) : Bool :=
  insts.any fun m =>
    m.path == v.path && m.vars.any fun d => d.symbol == v.symbol && d.value.isNone

/-- Substituting a pinned value for a variable inside an expression. -/
def Expr.substVar (v : VarId) (q : ℚ) : Expr → Expr
  | .var w => if w = v then .lit q else .var w
  | .lit r => .lit r
  | .pi => .pi
  | .add a b => .add (a.substVar v q) (b.substVar v q)
  | .mul a b => .mul (a.substVar v q) (b.substVar v q)
  | .div a b => .div (a.substVar v q) (b.substVar v q)
  | .pow a e => .pow (a.substVar v q) e

/-- Substituting a pinned value inside one constraint. -/
def Constraint.substVar (v : VarId) (q : ℚ) (c : Constraint) : Constraint :=
  ⟨c.lhs.substVar v q, c.cmp, c.rhs.substVar v q⟩

/-- Applying one substitution entry across the flattened set. -/
def substFlat (flat : List Constraint) (e : SubstEntry) : List Constraint :=
  flat.map fun c => c.substVar e.target e.value

/-- Modelled from the spec: the substitution adapter
(spec section 4.5, `apply_substitutions(constraints, table)`) lives in the
external gpkit library, not under src/.  Per the spec, for each entry it
asserts the target Variable exists in the flattened set and is currently
free (not already fixed at build time), failing with
SubstitutionTargetError otherwise. -/
def apply_substitutions (insts : List ModelInst) :
    List Constraint → List SubstEntry → Except SubstError (List Constraint)
  | flat, [] => .ok flat
  | flat, e :: rest =>
      if occursIn flat e.target && isFreeVar insts e.target then
        apply_substitutions insts (substFlat flat e) rest
      else .error (.substitutionTargetError e.target)

/-- The caller-facing constraint set after attempting a substitution
table: on failure the original set is kept unmodified (spec section 8,
"Substitution rejection"). -/
def applyOrKeep (insts : List ModelInst) (flat : List Constraint)
    (table : List SubstEntry) : List Constraint :=
  match apply_substitutions insts flat table with
  | .ok l => l
  | .error _ => flat

/-- Whether a constraint mentions a variable with the given local symbol. -/
def mentionsSymbol (c : Constraint) (s : String) : Bool :=
  c.varIds.any fun v => v.symbol == s

/-- A reserve-requirement constraint: one referencing the fixed loiter
duration or the fixed diversion distance (aircraft_models.py lines
309-314; these are the only constraints in the source mentioning either
symbol). -/
def isReserveCon (c : Constraint) : Bool :=
  mentionsSymbol c ("t_{loiter}") || mentionsSymbol c ("R_{divert}")

/-- Smart constructor for an equality constraint (source `==`). -/
def ceq (a b : Expr) : CSet := .con ⟨a, .eq, b⟩

/-- Smart constructor for a less-or-equal constraint (source `<=`). -/
def cle (a b : Expr) : CSet := .con ⟨a, .le, b⟩

/-- Smart constructor for a greater-or-equal constraint (source `>=`). -/
def cge (a b : Expr) : CSet := .con ⟨a, .ge, b⟩

/-
Instance paths.  Modelled from the spec: the composer that assigns
"explicit qualified-path keys ... deterministically at construction"
(spec sections 2 and 9) lives in the external gpkit library; paths here
use the attribute names under which the source binds each instance
(`self.rotors`, `self.fs0`, `rotorPerf`, ...), with the `__main__`
objects `testAircraft`, `testSizingMission`, `testTypicalMission` at the
roots (aircraft_models.py lines 435-447).
-/

def aircraftPath : MPath := ["testAircraft"]

def rotorsPath : MPath := aircraftPath ++ ["rotors"]

def batteryPath : MPath := aircraftPath ++ ["battery"]

def crewPath : MPath := aircraftPath ++ ["crew"]

def structurePath : MPath := aircraftPath ++ ["structure"]

def powerSystemPath : MPath := aircraftPath ++ ["powerSystem"]

def sizingPath : MPath := ["testSizingMission"]

def typicalPath : MPath := ["testTypicalMission"]

def sizingPassengersPath : MPath := sizingPath ++ ["passengers"]

def sizingHoverStatePath : MPath := sizingPath ++ ["hoverState"]

def fs0Path : MPath := sizingPath ++ ["fs0"]

def fs1Path : MPath := sizingPath ++ ["fs1"]

def fs2Path : MPath := sizingPath ++ ["fs2"]

def fs3Path : MPath := sizingPath ++ ["fs3"]

def fs4Path : MPath := sizingPath ++ ["fs4"]

def fs5Path : MPath := sizingPath ++ ["fs5"]

def typicalPassengersPath : MPath := typicalPath ++ ["passengers"]

def typicalHoverStatePath : MPath := typicalPath ++ ["hoverState"]

def tfs0Path : MPath := typicalPath ++ ["fs0"]

def tfs1Path : MPath := typicalPath ++ ["fs1"]

def tfs2Path : MPath := typicalPath ++ ["fs2"]

/-- Path of the rotor performance model owned by a hover segment. -/
def rotorPerfPath (p : MPath) : MPath := p ++ ["rotorPerf"]

/-- Path of the battery performance model owned by a flight segment. -/
def batteryPerfPath (p : MPath) : MPath := p ++ ["batteryPerf"]

/-- Path of the power-system performance model owned by a flight segment. -/
def powerSystemPerfPath (p : MPath) : MPath := p ++ ["powerSystemPerf"]

/-
Embeddings of the model classes.  Each `<Class>_vars` is the Variable
list the class's `setup` declares, in source order; each `<Class>_cs` is
the nested constraint list `setup` returns.  Unit strings and
descriptions are omitted (units are an excluded external collaborator,
spec section 1); numbers are the magnitudes in the source's units.
-/

/-- Variables of `SimpleOnDemandAircraft.setup`
(aircraft_models.py lines 11-16).  The symbols written `"\eta"` etc. in
Python are escaped here. -/
def SimpleOnDemandAircraft_vars (L_D eta_cruise : ℚ) : List VarDecl :=
  [⟨"MTOW", none⟩, ⟨"W_{noPassengers}", none⟩, ⟨"C_{eff}", none⟩,
   ⟨"g", some (9807/1000)⟩, ⟨"L_D", some L_D⟩, ⟨"\\eta", some eta_cruise⟩]

/-- Variables of `Rotors.setup` (lines 52-59).  The rotor weight `W` is
fixed at 0 lbf ("weight model not implemented yet"). -/
def Rotors_vars (N s : ℚ) : List VarDecl :=
  [⟨"R", none⟩, ⟨"D", none⟩, ⟨"A", none⟩, ⟨"A_{total}", none⟩,
   ⟨"N", some N⟩, ⟨"s", some s⟩, ⟨"W", some 0⟩]

/-- Constraints of `Rotors.setup` (line 61). -/
def Rotors_cs (p : MPath) : List CSet :=
  let R := Expr.var ⟨p, "R"⟩
  let D := Expr.var ⟨p, "D"⟩
  let A := Expr.var ⟨p, "A"⟩
  let A_total := Expr.var ⟨p, "A_{total}"⟩
  let N := Expr.var ⟨p, "N"⟩
  let s := Expr.var ⟨p, "s"⟩
  [ceq A (.mul .pi (.pow R 2)), ceq D (.mul (.lit 2) R), ceq N N, ceq s s,
   ceq A_total (.mul N A)]

/-- Variables of `Battery.setup` (lines 139-150).  The usable-energy
fraction is a build-time parameter, default 0.8 in the source signature
(line 138). -/
def Battery_vars (C_m usable_energy_fraction P_m : ℚ) : List VarDecl :=
  [⟨"g", none⟩, ⟨"C", none⟩, ⟨"C_{eff}", none⟩,
   ⟨"usable_energy_fraction", some usable_energy_fraction⟩,
   ⟨"W", none⟩, ⟨"m", none⟩, ⟨"C_m", some C_m⟩, ⟨"P_m", some P_m⟩,
   ⟨"P_{max}", none⟩]

/-- The default usable-energy fraction of `Battery.setup` (line 138). -/
def Battery_default_usable_energy_fraction : ℚ := 4/5

/-- Constraints of `Battery.setup` (line 155). -/
def Battery_cs (p : MPath) : List CSet :=
  let g := Expr.var ⟨p, "g"⟩
  let C := Expr.var ⟨p, "C"⟩
  let C_eff := Expr.var ⟨p, "C_{eff}"⟩
  let f := Expr.var ⟨p, "usable_energy_fraction"⟩
  let W := Expr.var ⟨p, "W"⟩
  let m := Expr.var ⟨p, "m"⟩
  let C_m := Expr.var ⟨p, "C_m"⟩
  let P_m := Expr.var ⟨p, "P_m"⟩
  let P_max := Expr.var ⟨p, "P_{max}"⟩
  [ceq C (.mul m C_m), ceq W (.mul m g), ceq C_eff (.mul f C),
   ceq P_max (.mul P_m m)]

/-- Variables of `BatteryPerformance.setup` (lines 159-162). -/
def BatteryPerformance_vars : List VarDecl :=
  [⟨"E", none⟩, ⟨"P", none⟩, ⟨"t", none⟩, ⟨"Rt", some 1⟩]

/-- Constraints of `BatteryPerformance.setup` (line 166): the Peukert
energy relation and the battery power bound.  `bP` is the parent
battery's path; `n` is the plain-float discharge parameter
`battery.n`. -/
def BatteryPerformance_cs (p bP : MPath) (n : ℚ) : List CSet :=
  let E := Expr.var ⟨p, "E"⟩
  let P := Expr.var ⟨p, "P"⟩
  let t := Expr.var ⟨p, "t"⟩
  let Rt := Expr.var ⟨p, "Rt"⟩
  [ceq E (.mul (.mul P Rt) (.pow (.div t Rt) (1/n))),
   cle P (.var ⟨bP, "P_{max}"⟩)]

/-- Variables of `Crew.setup` (lines 171-173). -/
def Crew_vars (W_oneCrew N_crew : ℚ) : List VarDecl :=
  [⟨"W_{oneCrew}", some W_oneCrew⟩, ⟨"N_{crew}", some N_crew⟩, ⟨"W", none⟩]

/-- Constraints of `Crew.setup` (line 175). -/
def Crew_cs (p : MPath) : List CSet :=
  [ceq (.var ⟨p, "W"⟩) (.mul (.var ⟨p, "N_{crew}"⟩) (.var ⟨p, "W_{oneCrew}"⟩))]

/-- Variables of `Passengers.setup` (lines 179-182). -/
def Passengers_vars (W_onePassenger N_passengers : ℚ) : List VarDecl :=
  [⟨"W_{onePassenger}", some W_onePassenger⟩,
   ⟨"N_{passengers}", some N_passengers⟩, ⟨"W", none⟩]

/-- Constraints of `Passengers.setup` (line 184). -/
def Passengers_cs (p : MPath) : List CSet :=
  [ceq (.var ⟨p, "W"⟩)
       (.mul (.var ⟨p, "N_{passengers}"⟩) (.var ⟨p, "W_{onePassenger}"⟩))]

/-- Variables of `SimpleOnDemandStructure.setup` (lines 40-41). -/
def SimpleOnDemandStructure_vars (weight_fraction : ℚ) : List VarDecl :=
  [⟨"W", none⟩, ⟨"weight_fraction", some weight_fraction⟩]

/-- Constraints of `SimpleOnDemandStructure.setup` (line 43); borrows the
aircraft's MTOW. -/
def SimpleOnDemandStructure_cs (p aP : MPath) : List CSet :=
  [ceq (.var ⟨p, "W"⟩)
       (.mul (.var ⟨p, "weight_fraction"⟩) (.var ⟨aP, "MTOW"⟩))]

/-- Variables of `PowerSystem.setup` (lines 191-192).  The electrical
power system weight `W` is fixed at 0 lbf. -/
def PowerSystem_vars (eta : ℚ) : List VarDecl :=
  [⟨"W", some 0⟩, ⟨"eta", some eta⟩]

/-- Constraints of `PowerSystem.setup` (line 197). -/
def PowerSystem_cs (p : MPath) : List CSet :=
  let W := Expr.var ⟨p, "W"⟩
  let eta := Expr.var ⟨p, "eta"⟩
  [ceq W W, ceq eta eta]

/-- Variables of `PowerSystemPerformance.setup` (lines 202-203). -/
def PowerSystemPerformance_vars : List VarDecl :=
  [⟨"P_{in}", none⟩, ⟨"P_{out}", none⟩]

/-- Constraints of `PowerSystemPerformance.setup` (line 206); borrows the
parent power system's efficiency variable. -/
def PowerSystemPerformance_cs (p psP : MPath) : List CSet :=
  [ceq (.var ⟨p, "P_{out}"⟩)
       (.mul (.var ⟨psP, "eta"⟩) (.var ⟨p, "P_{in}"⟩))]

/-- Variables of `FlightState.setup` (lines 215-216).  Modelled from the
spec: the `stdatmo` atmosphere lookup is an external collaborator (spec
section 6), a pure function of altitude; `rho` and `a` carry its values
at the given altitude. -/
def FlightState_vars (rho a : ℚ) : List VarDecl :=
  [⟨"\\rho", some rho⟩, ⟨"a", some a⟩]

/-- Constraints of `FlightState.setup` (line 219). -/
def FlightState_cs (p : MPath) : List CSet :=
  let rho := Expr.var ⟨p, "\\rho"⟩
  let a := Expr.var ⟨p, "a"⟩
  [ceq a a, ceq rho rho]

/-- Variables of `RotorsAero.setup` (lines 67-91), in declaration order.
Note lines 78 and 80 of the source: the Python name `CP` (power
coefficient) and the Python name `CPp` (profile power coefficient) are
BOTH declared with the local symbol "CP", so the symbol appears twice.
`p_ratio_max` carries the already-evaluated magnitude of
`10**(SPL_req/20.)` (100000 for the default SPL_req = 100). -/
def RotorsAero_vars (MT_max CL_mean_max p_ratio_max : ℚ) : List VarDecl :=
  [⟨"T", none⟩, ⟨"T_perRotor", none⟩, ⟨"T/A", none⟩, ⟨"P", none⟩,
   ⟨"P_perRotor", none⟩, ⟨"VT", none⟩, ⟨"\\omega", none⟩, ⟨"MT", none⟩,
   ⟨"MT_max", some MT_max⟩, ⟨"CT", none⟩, ⟨"CP", none⟩, ⟨"CPi", none⟩,
   ⟨"CP", none⟩, ⟨"CL_mean", none⟩, ⟨"CL_mean_max", some CL_mean_max⟩,
   ⟨"FOM", none⟩, ⟨"ki", some (11/10)⟩, ⟨"Cd0", some (1/100)⟩,
   ⟨"p_{ratio}", none⟩, ⟨"p_{ratio_max}", some p_ratio_max⟩,
   ⟨"x", some 500⟩, ⟨"k3", some (6804/1000000)⟩]

/-- Constraints of `RotorsAero.setup` (lines 93-130).  `rotP` is the
parent rotors model's path, `stP` the flight state's path, `stateCS` the
flight state's own constraint list (line 102 embeds the flight state
model itself).  Because the source gives both `CP` and `CPp` the local
symbol "CP" (lines 78/80), both references render as the qualified name
(p, "CP") under the spec's (path, symbol) identity. -/
def RotorsAero_cs (p rotP stP : MPath) (stateCS : List CSet) : List CSet :=
  let T := Expr.var ⟨p, "T"⟩
  let T_perRotor := Expr.var ⟨p, "T_perRotor"⟩
  let T_A := Expr.var ⟨p, "T/A"⟩
  let P := Expr.var ⟨p, "P"⟩
  let P_perRotor := Expr.var ⟨p, "P_perRotor"⟩
  let VT := Expr.var ⟨p, "VT"⟩
  let omega := Expr.var ⟨p, "\\omega"⟩
  let MT := Expr.var ⟨p, "MT"⟩
  let MT_max := Expr.var ⟨p, "MT_max"⟩
  let CT := Expr.var ⟨p, "CT"⟩
  let CP := Expr.var ⟨p, "CP"⟩
  let CPi := Expr.var ⟨p, "CPi"⟩
  let CPp := Expr.var ⟨p, "CP"⟩
  let CL_mean := Expr.var ⟨p, "CL_mean"⟩
  let CL_mean_max := Expr.var ⟨p, "CL_mean_max"⟩
  let FOM := Expr.var ⟨p, "FOM"⟩
  let ki := Expr.var ⟨p, "ki"⟩
  let Cd0 := Expr.var ⟨p, "Cd0"⟩
  let p_ratio := Expr.var ⟨p, "p_{ratio}"⟩
  let p_ratio_max := Expr.var ⟨p, "p_{ratio_max}"⟩
  let x := Expr.var ⟨p, "x"⟩
  let k3 := Expr.var ⟨p, "k3"⟩
  let R := Expr.var ⟨rotP, "R"⟩
  let A := Expr.var ⟨rotP, "A"⟩
  let A_total := Expr.var ⟨rotP, "A_{total}"⟩
  let N := Expr.var ⟨rotP, "N"⟩
  let s := Expr.var ⟨rotP, "s"⟩
  let rho := Expr.var ⟨stP, "\\rho"⟩
  let a := Expr.var ⟨stP, "a"⟩
  [.group stateCS,
   ceq T (.mul N T_perRotor),
   ceq P (.mul N P_perRotor),
   ceq T_perRotor (.mul (.mul (.mul (.mul (.lit (1/2)) rho) (.pow VT 2)) A) CT),
   ceq P_perRotor (.mul (.mul (.mul (.mul (.lit (1/2)) rho) (.pow VT 3)) A) CP),
   ceq T_A (.div T A_total),
   ceq CPi (.mul (.lit (1/2)) (.pow CT (3/2))),
   ceq CPp (.mul (.mul (.lit (1/4)) s) Cd0),
   cge CP (.add (.mul ki CPi) CPp),
   ceq FOM (.div CPi CP),
   ceq VT (.mul R omega),
   ceq VT (.mul MT a),
   cle MT MT_max,
   ceq CL_mean (.div (.mul (.lit 3) CT) s),
   cle CL_mean CL_mean_max,
   ceq p_ratio (.mul (.mul k3 (.div (.mul T omega) (.mul rho x)))
                     (.pow (.mul N s) (-(1/2)))),
   cle p_ratio p_ratio_max]

/-- Variables of `Hover.setup` (lines 224-229). -/
def Hover_vars (t : ℚ) : List VarDecl :=
  [⟨"E", none⟩, ⟨"P_{battery}", none⟩, ⟨"P_{rotors}", none⟩, ⟨"T", none⟩,
   ⟨"T/A", none⟩, ⟨"t", some t⟩]

/-- Constraints of `Hover.setup` (lines 233-245).  `mP` is the owning
mission's path, `aP` the aircraft's path, `stP`/`stateCS` the shared
flight state; `n` is the battery discharge parameter. -/
def Hover_cs (p mP aP stP : MPath) (stateCS : List CSet) (n : ℚ) : List CSet :=
  let E := Expr.var ⟨p, "E"⟩
  let P_battery := Expr.var ⟨p, "P_{battery}"⟩
  let P_rotors := Expr.var ⟨p, "P_{rotors}"⟩
  let T := Expr.var ⟨p, "T"⟩
  let T_A := Expr.var ⟨p, "T/A"⟩
  let t := Expr.var ⟨p, "t"⟩
  let W := Expr.var ⟨mP, "W_{mission}"⟩
  let rp := rotorPerfPath p
  let bp := batteryPerfPath p
  let pp := powerSystemPerfPath p
  [.group (RotorsAero_cs rp (aP ++ ["rotors"]) stP stateCS),
   .group (BatteryPerformance_cs bp (aP ++ ["battery"]) n),
   .group (PowerSystemPerformance_cs pp (aP ++ ["powerSystem"])),
   ceq P_rotors (.var ⟨rp, "P"⟩), ceq T (.var ⟨rp, "T"⟩),
   ceq T_A (.var ⟨rp, "T/A"⟩),
   ceq P_battery (.var ⟨pp, "P_{in}"⟩), ceq P_rotors (.var ⟨pp, "P_{out}"⟩),
   ceq E (.var ⟨bp, "E"⟩), ceq P_battery (.var ⟨bp, "P"⟩),
   ceq t (.var ⟨bp, "t"⟩),
   ceq T W]

/-- Variables of `LevelFlight.setup` (lines 250-258). -/
def LevelFlight_vars (V : ℚ) : List VarDecl :=
  [⟨"E", none⟩, ⟨"P_{battery}", none⟩, ⟨"P_{cruise}", none⟩, ⟨"T", none⟩,
   ⟨"D", none⟩, ⟨"t", none⟩, ⟨"segment_range", none⟩, ⟨"V", some V⟩]

/-- Constraints of `LevelFlight.setup` (lines 260-278); borrows the
mission weight and the aircraft's lift-to-drag ratio and cruise
propulsive efficiency. -/
def LevelFlight_cs (p mP aP : MPath) (n : ℚ) : List CSet :=
  let E := Expr.var ⟨p, "E"⟩
  let P_battery := Expr.var ⟨p, "P_{battery}"⟩
  let P_cruise := Expr.var ⟨p, "P_{cruise}"⟩
  let T := Expr.var ⟨p, "T"⟩
  let D := Expr.var ⟨p, "D"⟩
  let t := Expr.var ⟨p, "t"⟩
  let segment_range := Expr.var ⟨p, "segment_range"⟩
  let V := Expr.var ⟨p, "V"⟩
  let W := Expr.var ⟨mP, "W_{mission}"⟩
  let L_D := Expr.var ⟨aP, "L_D"⟩
  let eta_cruise := Expr.var ⟨aP, "\\eta"⟩
  let bp := batteryPerfPath p
  let pp := powerSystemPerfPath p
  [ceq E (.var ⟨bp, "E"⟩), ceq P_battery (.var ⟨bp, "P"⟩),
   ceq t (.var ⟨bp, "t"⟩),
   ceq P_battery (.var ⟨pp, "P_{in}"⟩), ceq P_cruise (.var ⟨pp, "P_{out}"⟩),
   ceq segment_range (.mul V t), ceq (.mul eta_cruise P_cruise) (.mul T V),
   ceq T D, ceq W (.mul L_D D),
   .group (BatteryPerformance_cs bp (aP ++ ["battery"]) n),
   .group (PowerSystemPerformance_cs pp (aP ++ ["powerSystem"]))]

/-- Constraints of `SimpleOnDemandAircraft.setup` (lines 31-36):
the gravity link, the component models (one embedded list holding all
five components, line 33), the battery-capacity link, and the
no-passenger weight constraint summing the components' weights in
declaration order (Python's `sum` starts from 0; the zero addend is
elided here). -/
def SimpleOnDemandAircraft_cs : List CSet :=
  let p := aircraftPath
  let g := Expr.var ⟨p, "g"⟩
  let C_eff := Expr.var ⟨p, "C_{eff}"⟩
  let W_noPassengers := Expr.var ⟨p, "W_{noPassengers}"⟩
  [ceq g (.var ⟨batteryPath, "g"⟩),
   .group [.group (Rotors_cs rotorsPath), .group (Battery_cs batteryPath),
           .group (Crew_cs crewPath),
           .group (SimpleOnDemandStructure_cs structurePath p),
           .group (PowerSystem_cs powerSystemPath)],
   ceq C_eff (.var ⟨batteryPath, "C_{eff}"⟩),
   cge W_noPassengers
       (.add (.add (.add (.add (.var ⟨rotorsPath, "W"⟩)
         (.var ⟨batteryPath, "W"⟩)) (.var ⟨crewPath, "W"⟩))
         (.var ⟨structurePath, "W"⟩)) (.var ⟨powerSystemPath, "W"⟩))]

/-- Variables of `OnDemandSizingMission.setup` (lines 285-287 and
309-313): the three unconditional Variables, then exactly the reserve
Variable of the selected reserve policy (t_{loiter} fixed at 45 minutes
for "FAA", R_{divert} fixed at 2 nautical miles for "Uber", nothing for
any other flag value). -/
def OnDemandSizingMission_vars (rt : String) (mission_range : ℚ) :
    List VarDecl :=
  [⟨"W_{mission}", none⟩, ⟨"mission_range", some mission_range⟩,
   ⟨"p_{ratio}", none⟩]
  ++ (if rt = "FAA" then [⟨"t_{loiter}", some 45⟩] else [])
  ++ (if rt = "Uber" then [⟨"R_{divert}", some 2⟩] else [])

/-- The sizing mission's six flight segments, in declaration order
(lines 296-301): takeoff hover, cruise, landing hover, second takeoff
hover, loiter (reserve), final landing hover. -/
def sizingSegPaths : List MPath :=
  [fs0Path, fs1Path, fs2Path, fs3Path, fs4Path, fs5Path]

/-- Constraints of `OnDemandSizingMission.setup` (lines 282-322),
parametric in the reserve-policy flag `reserve_type`.  Numeric build
parameters are those of `__main__` (lines 417-443): battery discharge
parameter n = 1, V_cruise = 200 mph, V_loiter = 100 mph, 120 s hovers.
Line 321 extends `constraints` with the flight state model's elements
directly (no wrapping list), so its constraints are appended unwrapped. -/
def OnDemandSizingMission_cs (rt : String) : List CSet :=
  let p := sizingPath
  let W := Expr.var ⟨p, "W_{mission}"⟩
  let mission_range := Expr.var ⟨p, "mission_range"⟩
  let p_ratio := Expr.var ⟨p, "p_{ratio}"⟩
  let C_eff := Expr.var ⟨aircraftPath, "C_{eff}"⟩
  let stCS := FlightState_cs sizingHoverStatePath
  [cge W (.add (.var ⟨aircraftPath, "W_{noPassengers}"⟩)
              (.var ⟨sizingPassengersPath, "W"⟩)),
   cge (.var ⟨aircraftPath, "MTOW"⟩) W,
   .group (Passengers_cs sizingPassengersPath)]
  ++ (if rt = "FAA" then
        [ceq (.var ⟨p, "t_{loiter}"⟩) (.var ⟨fs4Path, "t"⟩)] else [])
  ++ (if rt = "Uber" then
        [ceq (.var ⟨p, "R_{divert}"⟩) (.var ⟨fs4Path, "segment_range"⟩)]
      else [])
  ++ [ceq mission_range (.var ⟨fs1Path, "segment_range"⟩),
      cge C_eff
        (.add (.add (.add (.add (.add (.var ⟨fs0Path, "E"⟩)
          (.var ⟨fs1Path, "E"⟩)) (.var ⟨fs2Path, "E"⟩))
          (.var ⟨fs3Path, "E"⟩)) (.var ⟨fs4Path, "E"⟩))
          (.var ⟨fs5Path, "E"⟩)),
      .group (Hover_cs fs0Path p aircraftPath sizingHoverStatePath stCS 1),
      .group (LevelFlight_cs fs1Path p aircraftPath 1),
      .group (Hover_cs fs2Path p aircraftPath sizingHoverStatePath stCS 1),
      .group (Hover_cs fs3Path p aircraftPath sizingHoverStatePath stCS 1),
      .group (LevelFlight_cs fs4Path p aircraftPath 1),
      .group (Hover_cs fs5Path p aircraftPath sizingHoverStatePath stCS 1),
      ceq p_ratio (.var ⟨rotorPerfPath fs0Path, "p_{ratio}"⟩)]
  ++ stCS

/-- Variables of `OnDemandTypicalMission.setup` (lines 330-363), in
declaration order, with the `__main__` economic parameters (lines
431-433 and 445-447). -/
def OnDemandTypicalMission_vars : List VarDecl :=
  [⟨"W_{mission}", none⟩, ⟨"mission_range", some 100⟩, ⟨"p_{ratio}", none⟩,
   ⟨"cost_per_trip", none⟩, ⟨"cost_per_trip_per_passenger", none⟩,
   ⟨"c_{vehicle}", none⟩, ⟨"t_{mission}", none⟩, ⟨"vehicle_life", some 10⟩,
   ⟨"cost_per_weight", some 112⟩, ⟨"purchase_price", none⟩,
   ⟨"c_{energy}", none⟩, ⟨"cost_per_energy", some (12/100)⟩,
   ⟨"E_{mission}", none⟩, ⟨"c_{pilot}", none⟩, ⟨"pilot_salary", some 40⟩,
   ⟨"c_{maintenance}", none⟩, ⟨"overhaul_cost", none⟩,
   ⟨"overhaul_time", some 2⟩, ⟨"N_{mechanics}", some 2⟩,
   ⟨"time_between_overhauls", some 50⟩, ⟨"mechanic_salary", some 30⟩]

/-- The typical mission's three flight segments, in declaration order
(lines 371-373). -/
def typicalSegPaths : List MPath := [tfs0Path, tfs1Path, tfs2Path]

/-- Constraints of `OnDemandTypicalMission.setup` (lines 375-402), with
the `__main__` build parameters (30 s hovers, V_cruise = 200 mph, n = 1).
Line 385 extends `constraints` with the flight state model's elements
directly, as in the sizing mission. -/
def OnDemandTypicalMission_cs : List CSet :=
  let p := typicalPath
  let W := Expr.var ⟨p, "W_{mission}"⟩
  let mission_range := Expr.var ⟨p, "mission_range"⟩
  let p_ratio := Expr.var ⟨p, "p_{ratio}"⟩
  let C_eff := Expr.var ⟨aircraftPath, "C_{eff}"⟩
  let cpt := Expr.var ⟨p, "cost_per_trip"⟩
  let cptpp := Expr.var ⟨p, "cost_per_trip_per_passenger"⟩
  let c_vehicle := Expr.var ⟨p, "c_{vehicle}"⟩
  let t_mission := Expr.var ⟨p, "t_{mission}"⟩
  let vehicle_life := Expr.var ⟨p, "vehicle_life"⟩
  let cost_per_weight := Expr.var ⟨p, "cost_per_weight"⟩
  let purchase_price := Expr.var ⟨p, "purchase_price"⟩
  let c_energy := Expr.var ⟨p, "c_{energy}"⟩
  let cost_per_energy := Expr.var ⟨p, "cost_per_energy"⟩
  let E_mission := Expr.var ⟨p, "E_{mission}"⟩
  let c_pilot := Expr.var ⟨p, "c_{pilot}"⟩
  let pilot_salary := Expr.var ⟨p, "pilot_salary"⟩
  let c_maintenance := Expr.var ⟨p, "c_{maintenance}"⟩
  let overhaul_cost := Expr.var ⟨p, "overhaul_cost"⟩
  let overhaul_time := Expr.var ⟨p, "overhaul_time"⟩
  let N_mechanics := Expr.var ⟨p, "N_{mechanics}"⟩
  let time_between_overhauls := Expr.var ⟨p, "time_between_overhauls"⟩
  let mechanic_salary := Expr.var ⟨p, "mechanic_salary"⟩
  let stCS := FlightState_cs typicalHoverStatePath
  [cge W (.add (.var ⟨aircraftPath, "W_{noPassengers}"⟩)
              (.var ⟨typicalPassengersPath, "W"⟩)),
   cge (.var ⟨aircraftPath, "MTOW"⟩) W,
   .group (Passengers_cs typicalPassengersPath),
   ceq mission_range (.var ⟨tfs1Path, "segment_range"⟩),
   cge C_eff (.add (.add (.var ⟨tfs0Path, "E"⟩) (.var ⟨tfs1Path, "E"⟩))
                   (.var ⟨tfs2Path, "E"⟩)),
   .group (Hover_cs tfs0Path p aircraftPath typicalHoverStatePath stCS 1),
   .group (LevelFlight_cs tfs1Path p aircraftPath 1),
   .group (Hover_cs tfs2Path p aircraftPath typicalHoverStatePath stCS 1),
   ceq p_ratio (.var ⟨rotorPerfPath tfs0Path, "p_{ratio}"⟩)]
  ++ stCS
  ++ [ceq cpt (.mul cptpp (.var ⟨typicalPassengersPath, "N_{passengers}"⟩)),
      cge cpt (.add (.add (.add c_vehicle c_energy) c_pilot) c_maintenance),
      ceq c_vehicle (.div (.mul purchase_price t_mission) vehicle_life),
      cge t_mission (.add (.add (.var ⟨tfs0Path, "t"⟩)
                                (.var ⟨tfs1Path, "t"⟩))
                          (.var ⟨tfs2Path, "t"⟩)),
      ceq purchase_price (.mul cost_per_weight (.var ⟨aircraftPath, "MTOW"⟩)),
      ceq c_energy (.mul E_mission cost_per_energy),
      cge E_mission (.add (.add (.var ⟨tfs0Path, "E"⟩)
                                (.var ⟨tfs1Path, "E"⟩))
                          (.var ⟨tfs2Path, "E"⟩)),
      ceq c_pilot (.mul pilot_salary t_mission),
      ceq c_maintenance (.div (.mul overhaul_cost t_mission)
                              time_between_overhauls),
      ceq overhaul_cost (.mul (.mul N_mechanics overhaul_time)
                              mechanic_salary)]

/-- Sea-level density magnitude returned by the external `stdatmo`
lookup at h = 0 ft.  Modelled from the spec: the atmosphere lookup is an
excluded external collaborator (spec section 6); the exact magnitude is
irrelevant to every claim. -/
def seaLevelRho : ℚ := 49/40

/-- Sea-level speed of sound (ft/s) from the external `stdatmo` lookup,
modelled like `seaLevelRho`. -/
def seaLevelA : ℚ := 111645/100

/-- The flattened constraint list of the sizing mission build. -/
def sizingFlat (rt : String) : List Constraint :=
  flattenList (OnDemandSizingMission_cs rt)

/-- The flattened constraint list of the typical mission build. -/
def typicalFlat : List Constraint := flattenList OnDemandTypicalMission_cs

/-- The flattened constraint list of the aircraft build. -/
def aircraftFlat : List Constraint := flattenList SimpleOnDemandAircraft_cs

/-- The top-level problem of `__main__` (lines 449-450): the aircraft,
the sizing mission and the typical mission composed as three children of
one combining model. -/
def problem_cs (rt : String) : List CSet :=
  [.group SimpleOnDemandAircraft_cs, .group (OnDemandSizingMission_cs rt),
   .group OnDemandTypicalMission_cs]

/-- The flattened constraint list of the whole problem. -/
def problemFlat (rt : String) : List Constraint := flattenList (problem_cs rt)

/-
Instance registry: every model object of the `__main__` problem with its
path and declared Variables.  `__main__` parameter values (lines
408-447): N = 12 rotors, solidity 0.1, L/D = 14, eta_cruise = 0.85,
eta_electric = 0.95, weight_fraction = 0.3444, C_m = 400 Wh/kg, battery
defaults usable_energy_fraction = 0.8 and P_m = 3000 W/kg, crew of one
at 190 lbf, one 200 lbf passenger, sizing range 200 nm, typical range
100 nm; RotorsAero is built through `Rotors.performance` defaults
MT_max = 0.9, CL_mean_max = 1.0, SPL_req = 100 (so p_ratio_max =
10^(100/20) = 100000).
-/

/-- The aircraft instance of `__main__` (lines 435-436). -/
def aircraftInst : ModelInst :=
  ⟨aircraftPath, SimpleOnDemandAircraft_vars 14 (85/100)⟩

/-- The rotors component instance (line 24, N = 12). -/
def rotorsInst : ModelInst := ⟨rotorsPath, Rotors_vars 12 (1/10)⟩

/-- The battery component instance (line 25); the usable-energy fraction
is left at its default. -/
def batteryInst : ModelInst :=
  ⟨batteryPath, Battery_vars 400 Battery_default_usable_energy_fraction 3000⟩

/-- The crew component instance (line 26). -/
def crewInst : ModelInst := ⟨crewPath, Crew_vars 190 1⟩

/-- The structure component instance (line 27). -/
def structureInst : ModelInst :=
  ⟨structurePath, SimpleOnDemandStructure_vars (3444/10000)⟩

/-- The power-system component instance (line 28). -/
def powerSystemInst : ModelInst :=
  ⟨powerSystemPath, PowerSystem_vars (95/100)⟩

/-- The aircraft's component list, in declaration order (line 29). -/
def componentInsts : List ModelInst :=
  [rotorsInst, batteryInst, crewInst, structureInst, powerSystemInst]

/-- The model instances of one hover segment: the segment itself plus
its three per-condition performance models (lines 233-235). -/
def hoverInsts (p : MPath) (t : ℚ) : List ModelInst :=
  [⟨p, Hover_vars t⟩,
   ⟨rotorPerfPath p, RotorsAero_vars (9/10) 1 100000⟩,
   ⟨batteryPerfPath p, BatteryPerformance_vars⟩,
   ⟨powerSystemPerfPath p, PowerSystemPerformance_vars⟩]

/-- The model instances of one level-flight segment: the segment plus
its two performance models (lines 266-267). -/
def levelFlightInsts (p : MPath) (V : ℚ) : List ModelInst :=
  [⟨p, LevelFlight_vars V⟩,
   ⟨batteryPerfPath p, BatteryPerformance_vars⟩,
   ⟨powerSystemPerfPath p, PowerSystemPerformance_vars⟩]

/-- Every model instance of the `__main__` problem, with its instance
path and declared Variables, parametric in the reserve-policy flag. -/
def problemInsts (rt : String) : List ModelInst :=
  [aircraftInst] ++ componentInsts
  ++ [⟨sizingPath, OnDemandSizingMission_vars rt 200⟩,
      ⟨sizingPassengersPath, Passengers_vars 200 1⟩,
      ⟨sizingHoverStatePath, FlightState_vars seaLevelRho seaLevelA⟩]
  ++ hoverInsts fs0Path 120 ++ levelFlightInsts fs1Path 200
  ++ hoverInsts fs2Path 120 ++ hoverInsts fs3Path 120
  ++ levelFlightInsts fs4Path 100 ++ hoverInsts fs5Path 120
  ++ [⟨typicalPath, OnDemandTypicalMission_vars⟩,
      ⟨typicalPassengersPath, Passengers_vars 200 1⟩,
      ⟨typicalHoverStatePath, FlightState_vars seaLevelRho seaLevelA⟩]
  ++ hoverInsts tfs0Path 30 ++ levelFlightInsts tfs1Path 200
  ++ hoverInsts tfs2Path 30

/-- Left-nested sum of the energy Variables of a list of segments,
exactly the shape the source builds with `+` (lines 317-318 and 382). -/
def segmentEnergySum : List MPath → Expr
  | [] => .lit 0
  | p :: ps => ps.foldl (fun acc q => .add acc (.var ⟨q, "E"⟩)) (.var ⟨p, "E"⟩)

/-- All qualified names declared across the problem's model instances. -/
def problemQNames (rt : String) : List VarId :=
  ((problemInsts rt).map ModelInst.qnames).flatten

/-- The FAA reserve constraint of the sizing mission (lines 309-311):
the fs4 loiter segment's time equals the fixed 45-minute loiter time. -/
def tLoiterCon : Constraint :=
  ⟨.var ⟨sizingPath, "t_{loiter}"⟩, .eq, .var ⟨fs4Path, "t"⟩⟩

/-- The Uber reserve constraint of the sizing mission (lines 312-314):
the fs4 segment's range equals the fixed 2-nautical-mile diversion
distance. -/
def rDivertCon : Constraint :=
  ⟨.var ⟨sizingPath, "R_{divert}"⟩, .eq, .var ⟨fs4Path, "segment_range"⟩⟩

/-- The sizing mission's energy-budget constraint (lines 317-318):
the aircraft's effective capacity bounds the sum of the six segment
energies. -/
def sizingEnergyCon : Constraint :=
  ⟨.var ⟨aircraftPath, "C_{eff}"⟩, .ge,
   .add (.add (.add (.add (.add (.var ⟨fs0Path, "E"⟩)
     (.var ⟨fs1Path, "E"⟩)) (.var ⟨fs2Path, "E"⟩))
     (.var ⟨fs3Path, "E"⟩)) (.var ⟨fs4Path, "E"⟩))
     (.var ⟨fs5Path, "E"⟩)⟩

/-- The typical mission's energy-budget constraint (line 382). -/
def typicalEnergyCon : Constraint :=
  ⟨.var ⟨aircraftPath, "C_{eff}"⟩, .ge,
   .add (.add (.var ⟨tfs0Path, "E"⟩) (.var ⟨tfs1Path, "E"⟩))
        (.var ⟨tfs2Path, "E"⟩)⟩

/-- The battery's effective-capacity constraint (line 155):
C_eff == usable_energy_fraction * C. -/
def batteryCeffCon : Constraint :=
  ⟨.var ⟨batteryPath, "C_{eff}"⟩, .eq,
   .mul (.var ⟨batteryPath, "usable_energy_fraction"⟩)
        (.var ⟨batteryPath, "C"⟩)⟩

/-- The aircraft's battery-capacity link (line 34):
the aircraft's C_eff equals the battery's C_eff. -/
def aircraftCeffLink : Constraint :=
  ⟨.var ⟨aircraftPath, "C_{eff}"⟩, .eq, .var ⟨batteryPath, "C_{eff}"⟩⟩

/-- The aircraft's no-passenger weight constraint (line 35):
W_{noPassengers} bounds the sum of the five component weights. -/
def aircraftWeightCon : Constraint :=
  ⟨.var ⟨aircraftPath, "W_{noPassengers}"⟩, .ge,
   .add (.add (.add (.add (.var ⟨rotorsPath, "W"⟩)
     (.var ⟨batteryPath, "W"⟩)) (.var ⟨crewPath, "W"⟩))
     (.var ⟨structurePath, "W"⟩)) (.var ⟨powerSystemPath, "W"⟩)⟩

/-- The battery's maximum-power definition (line 155):
P_{max} == P_m * m. -/
def pmaxDefCon : Constraint :=
  ⟨.var ⟨batteryPath, "P_{max}"⟩, .eq,
   .mul (.var ⟨batteryPath, "P_m"⟩) (.var ⟨batteryPath, "m"⟩)⟩

/-- The battery power bound added by the battery performance model of a
segment (line 166): the segment's power draw is at most the battery's
maximum power. -/
def segPCon (p : MPath) : Constraint :=
  ⟨.var ⟨batteryPerfPath p, "P"⟩, .le, .var ⟨batteryPath, "P_{max}"⟩⟩

/-- The substitution table of `__main__` (lines 441-443): disk loading
T/A fixed to 16.3 lbf/ft^2 for the four hover segments of the sizing
mission. -/
def mainTable : List SubstEntry :=
  [⟨⟨fs0Path, "T/A"⟩, 163/10⟩, ⟨⟨fs2Path, "T/A"⟩, 163/10⟩,
   ⟨⟨fs3Path, "T/A"⟩, 163/10⟩, ⟨⟨fs5Path, "T/A"⟩, 163/10⟩]

/-- A concrete all-ones assignment used to instantiate universally
quantified semantic statements. -/
noncomputable def wEnvOne : VarId → ℝ := fun _ => 1

/-- A concrete assignment sending every weight variable to zero and all
other variables to one. -/
noncomputable def wEnv10 : VarId → ℝ := fun v =>
  if v.symbol = "W" then 0 else 1

/-- A concrete assignment with battery capacity 5, effective capacity 4,
usable-energy fraction 4/5 and each segment energy 1/2. -/
noncomputable def wEnv8 : VarId → ℝ := fun v =>
  if v.symbol = "usable_energy_fraction" then 4/5
  else if v.symbol = "C" then 5
  else if v.symbol = "C_{eff}" then 4
  else if v.symbol = "E" then 1/2
  else 1

/-- Flattening distributes over concatenation of nested collections. -/
theorem flattenList_append (a b : List CSet) :
    flattenList (a ++ b) = flattenList a ++ flattenList b := by
  induction a with
  | nil => simp [flattenList]
  | cons s r ih => simp [flattenList, ih]

/-- Flattening a list of bare constraints returns it unchanged. -/
theorem flattenList_map_con (l : List Constraint) :
    flattenList (l.map CSet.con) = l := by
  induction l with
  | nil => simp [flattenList]
  | cons c r ih => simp [flattenList, CSet.flatten, ih]

/-- Flattening a list of embedded child models concatenates the
children's already-flattened lists in order. -/
theorem flattenList_map_group (ls : List (List CSet)) :
    flattenList (ls.map CSet.group) = (ls.map flattenList).flatten := by
  induction ls with
  | nil => simp [flattenList]
  | cons l r ih => simp [flattenList, CSet.flatten, ih]

/-- Permuting the nested collections permutes the flattened list. -/
theorem flattenList_perm {l l2 : List CSet} (h : l.Perm l2) :
    (flattenList l).Perm (flattenList l2) := by
  induction h with
  | nil => exact .refl _
  | cons x h ih =>
      simp only [flattenList]
      exact ih.append_left _
  | swap x y l =>
      simp only [flattenList]
      rw [← List.append_assoc, ← List.append_assoc]
      exact (List.perm_append_comm).append_right _
  | trans h1 h2 ih1 ih2 => exact ih1.trans ih2

/-- Evaluating a left fold of energy-variable additions. -/
theorem eval_foldl_addE (env : VarId → ℝ) (ps : List MPath) :
    ∀ e : Expr,
      (ps.foldl (fun acc q => Expr.add acc (.var ⟨q, "E"⟩)) e).eval env
        = e.eval env + (ps.map fun p => env ⟨p, "E"⟩).sum := by
  induction ps with
  | nil => intro e; simp [Expr.eval]
  | cons p ps ih => intro e; simp [ih, Expr.eval, add_assoc]

/-- The left-nested segment energy sum evaluates to the list sum of the
segments' energy values. -/
theorem eval_segmentEnergySum (env : VarId → ℝ) :
    ∀ l : List MPath,
      (segmentEnergySum l).eval env = (l.map fun p => env ⟨p, "E"⟩).sum
  | [] => by simp [segmentEnergySum, Expr.eval]
  | p :: ps => by simp [segmentEnergySum, eval_foldl_addE, Expr.eval]

/-- A declaration run that succeeds has pairwise-distinct symbols, none
of them among the symbols already seen. -/
theorem declareGo_ok (path : MPath) :
    ∀ (ds : List VarDecl) (seen : List String),
      declareGo path seen ds = .ok () →
      (ds.map VarDecl.symbol).Nodup ∧
        ∀ s ∈ ds.map VarDecl.symbol, s ∉ seen := by
  intro ds
  induction ds with
  | nil => intro seen h; simp
  | cons d rest ih =>
      intro seen h
      by_cases hm : d.symbol ∈ seen
      · rw [declareGo, if_pos hm] at h
        exact absurd h (by simp)
      · rw [declareGo, if_neg hm] at h
        obtain ⟨h1, h2⟩ := ih _ h
        simp only [List.map_cons, List.nodup_cons, List.mem_cons]
        refine ⟨⟨fun hmem => ?_, h1⟩, fun s hs => ?_⟩
        · exact (h2 _ hmem) (List.mem_cons_self _ _)
        · rcases hs with rfl | hs2
          · exact hm
          · exact fun hseen => (h2 _ hs2) (List.mem_cons_of_mem _ hseen)

/-- A variable absent from an expression stays absent after substituting
a value for another variable. -/
theorem substVar_varIds_subset (t : VarId) (q : ℚ) :
    ∀ e : Expr, (e.substVar t q).varIds ⊆ e.varIds := by
  intro e
  induction e with
  | var w =>
      by_cases hw : w = t
      · simp [Expr.substVar, hw, Expr.varIds]
      · simp [Expr.substVar, hw, Expr.varIds]
  | lit r => simp [Expr.substVar, Expr.varIds]
  | pi => simp [Expr.substVar, Expr.varIds]
  | add a b iha ihb =>
      simpa [Expr.substVar, Expr.varIds] using List.append_subset.mpr
        ⟨iha.trans (List.subset_append_left _ _),
         ihb.trans (List.subset_append_right _ _)⟩
  | mul a b iha ihb =>
      simpa [Expr.substVar, Expr.varIds] using List.append_subset.mpr
        ⟨iha.trans (List.subset_append_left _ _),
         ihb.trans (List.subset_append_right _ _)⟩
  | div a b iha ihb =>
      simpa [Expr.substVar, Expr.varIds] using List.append_subset.mpr
        ⟨iha.trans (List.subset_append_left _ _),
         ihb.trans (List.subset_append_right _ _)⟩
  | pow a e iha => simpa [Expr.substVar, Expr.varIds] using iha

/-- A variable absent from the flattened set stays absent after a
substitution entry has been applied. -/
theorem occursIn_substFlat (flat : List Constraint) (e : SubstEntry)
    (v : VarId) (h : occursIn flat v = false) :
    occursIn (substFlat flat e) v = false := by
  simp only [occursIn, List.any_eq_false] at h ⊢
  intro c hc
  simp only [substFlat, List.mem_map] at hc
  obtain ⟨c0, hc0, hceq⟩ := hc
  have h0 := h c0 hc0
  simp only [decide_eq_true_eq] at h0 ⊢
  intro hmem
  apply h0
  rw [← hceq] at hmem
  simp only [Constraint.varIds, Constraint.substVar, List.mem_append] at hmem ⊢
  rcases hmem with hl | hr
  · exact Or.inl (substVar_varIds_subset _ _ _ hl)
  · exact Or.inr (substVar_varIds_subset _ _ _ hr)


set_option maxRecDepth 100000 in
/-- Claim C1, counterexample: the sizing mission built with the
reserve-policy flag set to the empty string (any value other than "FAA"
or "Uber") contains ZERO reserve-requirement constraints, refuting
"exactly one ... never zero ... for every value of the flag". -/
theorem claim1_counterexample :
    ((sizingFlat ("")).filter isReserveCon).length = 0 ∧
      ((sizingFlat ("")).filter isReserveCon).length ≠ 1 := by
  have h : ((sizingFlat ("")).filter isReserveCon).length = 0 := by decide
  exact ⟨h, by rw [h]; decide⟩

set_option maxRecDepth 100000 in
/-- Claim C1 (amended): the sizing mission build adds exactly one
reserve-requirement constraint when the flag is "FAA" (the fixed
loiter-duration constraint) or "Uber" (the fixed diversion-distance
constraint), and zero reserve constraints for every other flag value;
the typical mission (which has no reserve flag) adds none. -/
theorem claim1_theorem :
    ((sizingFlat ("FAA")).filter isReserveCon = [tLoiterCon]) ∧
    ((sizingFlat ("Uber")).filter isReserveCon = [rDivertCon]) ∧
    (∀ rt : String, rt ≠ "FAA" → rt ≠ "Uber" →
        (sizingFlat rt).filter isReserveCon = []) ∧
    (typicalFlat.filter isReserveCon = []) := by
  refine ⟨by decide, by decide, ?_, by decide⟩
  intro rt h1 h2
  simp only [sizingFlat, OnDemandSizingMission_cs, if_neg h1, if_neg h2]
  decide

set_option maxRecDepth 100000 in
/-- Claim C1 witness: the amended statement applied to the concrete
flag value "Joby", for which no reserve constraint is added. -/
theorem claim1_witness :
    (sizingFlat ("Joby")).filter isReserveCon = [] :=
  claim1_theorem.2.2.1 ("Joby") (by decide) (by decide)

/-- Claim C2: under the spec's declaration contract, declaring a
Variable whose local symbol already exists under the same owner path
fails with DuplicateSymbolError; consequently a build that succeeds has
pairwise-distinct local symbols; and in particular RotorsAero's
declaration list (which declares the symbol "CP" twice, source lines 78
and 80) fails with DuplicateSymbolError at "CP". -/
theorem claim2_theorem :
    (∀ (path : MPath) (seen : List String) (d : VarDecl)
        (rest : List VarDecl), d.symbol ∈ seen →
        declareGo path seen (d :: rest)
          = .error (.duplicateSymbolError path d.symbol)) ∧
    (∀ (path : MPath) (ds : List VarDecl),
        declareAll path ds = .ok () → (ds.map VarDecl.symbol).Nodup) ∧
    (declareAll (rotorPerfPath fs0Path) (RotorsAero_vars (9/10) 1 100000)
      = .error (.duplicateSymbolError (rotorPerfPath fs0Path) ("CP"))) := by
  refine ⟨?_, ?_, by decide⟩
  · intro path seen d rest h
    rw [declareGo, if_pos h]
  · intro path ds h
    exact (declareGo_ok path ds [] h).1

/-- Claim C2 witness: declaring a symbol already present fails, and the
battery's declaration list (with distinct symbols) passes and is
therefore duplicate-free. -/
theorem claim2_witness :
    (declareGo aircraftPath ["MTOW"] [(⟨"MTOW", none⟩ : VarDecl)]
       = .error (.duplicateSymbolError aircraftPath ("MTOW"))) ∧
    ((Battery_vars 400 (4/5) 3000).map VarDecl.symbol).Nodup :=
  ⟨claim2_theorem.1 aircraftPath ["MTOW"] ⟨"MTOW", none⟩ [] (by decide),
   claim2_theorem.2.1 batteryPath (Battery_vars 400 (4/5) 3000) (by decide)⟩

set_option maxRecDepth 100000 in
/-- Claim C6, evaluated at the failing input: in the problem built with
reserve flag "FAA", the qualified name (fs0's rotor-performance path,
"CP") is declared twice (source lines 78 and 80 give two Variables the
same symbol), so the qualified names of the tree are NOT pairwise
distinct. -/
theorem claim6_theorem :
    (problemQNames ("FAA")).count ⟨rotorPerfPath fs0Path, "CP"⟩ = 2 ∧
      ¬ (problemQNames ("FAA")).Nodup := by
  have h : (problemQNames ("FAA")).count ⟨rotorPerfPath fs0Path, "CP"⟩ = 2 := by
    decide
  refine ⟨h, fun hn => ?_⟩
  have hle := List.nodup_iff_count_le_one.mp hn ⟨rotorPerfPath fs0Path, "CP"⟩
  omega



set_option maxRecDepth 100000 in
/-- Claim C3: for both missions, the energy-budget constraint is in the
flattened set; its right-hand side is the literal left-nested sum of the
segments' energy Variables in declaration order (one addend per segment,
no omissions or duplicates, over pairwise-distinct segments); it is
satisfied exactly when the sum of the segment energies is at most the
vehicle's effective capacity; and the evaluated segment-energy sum is
invariant under any permutation of the segments. -/
theorem claim3_theorem :
    (sizingEnergyCon ∈ sizingFlat ("FAA")) ∧
    (typicalEnergyCon ∈ typicalFlat) ∧
    (sizingEnergyCon.rhs = segmentEnergySum sizingSegPaths) ∧
    (typicalEnergyCon.rhs = segmentEnergySum typicalSegPaths) ∧
    (sizingEnergyCon.rhs.addends
        = sizingSegPaths.map fun p => Expr.var ⟨p, "E"⟩) ∧
    (typicalEnergyCon.rhs.addends
        = typicalSegPaths.map fun p => Expr.var ⟨p, "E"⟩) ∧
    sizingSegPaths.Nodup ∧ typicalSegPaths.Nodup ∧
    (∀ env : VarId → ℝ,
        (sizingEnergyCon.sat env ↔
          (sizingSegPaths.map fun p => env ⟨p, "E"⟩).sum
            ≤ env ⟨aircraftPath, "C_{eff}"⟩) ∧
        (typicalEnergyCon.sat env ↔
          (typicalSegPaths.map fun p => env ⟨p, "E"⟩).sum
            ≤ env ⟨aircraftPath, "C_{eff}"⟩)) ∧
    (∀ (env : VarId → ℝ) (l l2 : List MPath), l.Perm l2 →
        (segmentEnergySum l).eval env = (segmentEnergySum l2).eval env) := by
  refine ⟨by decide, by decide, rfl, rfl, by decide, by decide, by decide,
    by decide, ?_, ?_⟩
  · intro env
    constructor
    · have h : sizingEnergyCon.sat env ↔
          (segmentEnergySum sizingSegPaths).eval env
            ≤ env ⟨aircraftPath, "C_{eff}"⟩ := Iff.rfl
      rw [h, eval_segmentEnergySum]
    · have h : typicalEnergyCon.sat env ↔
          (segmentEnergySum typicalSegPaths).eval env
            ≤ env ⟨aircraftPath, "C_{eff}"⟩ := Iff.rfl
      rw [h, eval_segmentEnergySum]
  · intro env l l2 hperm
    rw [eval_segmentEnergySum, eval_segmentEnergySum]
    exact (hperm.map _).sum_eq

/-- Claim C3 witness: the permutation-invariance part applied to a
concrete reordering of the sizing mission's segments under the all-ones
assignment. -/
theorem claim3_witness :
    (segmentEnergySum
        [fs1Path, fs0Path, fs2Path, fs3Path, fs4Path, fs5Path]).eval wEnvOne
      = (segmentEnergySum sizingSegPaths).eval wEnvOne :=
  claim3_theorem.2.2.2.2.2.2.2.2.2 wEnvOne _ _ (by decide)

/-- Claim C7: a parent's flattened constraint list is its own
constraints followed by its children's already-flattened lists in
declaration order; regrouping nested composition ((A then B) then C
versus A then (B then C)) yields the same flattened constraint multiset;
permuting the composed collections never changes the flattened multiset;
and the `__main__` problem's flattened set is likewise regrouping-
invariant. -/
theorem claim7_theorem :
    (∀ (own : List Constraint) (children : List (List CSet)),
        flattenList (own.map CSet.con ++ children.map CSet.group)
          = own ++ (children.map flattenList).flatten) ∧
    (∀ A B C : CSet,
        ((CSet.flatten (.group [.group [A, B], C]) : List Constraint) :
            Multiset Constraint)
          = ((CSet.flatten (.group [A, .group [B, C]]) : List Constraint) :
            Multiset Constraint)) ∧
    (∀ l l2 : List CSet, l.Perm l2 →
        ((flattenList l : List Constraint) : Multiset Constraint)
          = ((flattenList l2 : List Constraint) : Multiset Constraint)) ∧
    (∀ rt : String,
        ((flattenList [CSet.group [.group SimpleOnDemandAircraft_cs,
              .group (OnDemandSizingMission_cs rt)],
            .group OnDemandTypicalMission_cs] : List Constraint) :
            Multiset Constraint)
          = ((problemFlat rt : List Constraint) : Multiset Constraint)) := by
  refine ⟨?_, ?_, ?_, ?_⟩
  · intro own children
    rw [flattenList_append, flattenList_map_con, flattenList_map_group]
  · intro A B C
    have h : CSet.flatten (.group [.group [A, B], C])
        = CSet.flatten (.group [A, .group [B, C]]) := by
      simp [CSet.flatten, flattenList, List.append_assoc]
    rw [h]
  · intro l l2 hperm
    exact Multiset.coe_eq_coe.mpr (flattenList_perm hperm)
  · intro rt
    have h : flattenList [CSet.group [.group SimpleOnDemandAircraft_cs,
          .group (OnDemandSizingMission_cs rt)],
        .group OnDemandTypicalMission_cs] = problemFlat rt := by
      simp [problemFlat, problem_cs, flattenList, CSet.flatten,
        List.append_assoc]
    rw [h]

/-- Claim C7 witness: the permutation part applied to a concrete swap of
the aircraft's and the sizing mission's constraint collections. -/
theorem claim7_witness :
    ((flattenList [CSet.group (OnDemandSizingMission_cs ("FAA")),
        .group SimpleOnDemandAircraft_cs] : List Constraint) :
        Multiset Constraint)
      = ((flattenList [CSet.group SimpleOnDemandAircraft_cs,
          .group (OnDemandSizingMission_cs ("FAA"))] : List Constraint) :
          Multiset Constraint) :=
  claim7_theorem.2.2.1 _ _ (List.Perm.swap _ _ _)



/-- Claim C4: cross-model lookup fails with UnresolvedVariableError when
no candidate declares the symbol, fails with AmbiguousVariableError when
more than one candidate matches and the caller gave no owner-path
disambiguation; in particular the symbol "W", declared identically by
all five sibling components of the aircraft, is ambiguous without an
owner path, resolves once the owner path is given, and an unknown
symbol is unresolved. -/
theorem claim4_theorem :
    (∀ (own : ModelInst) (refs : List ModelInst) (s : String),
        own.declares s = false → resolveCandidates refs s none = [] →
        resolve own refs s none = .error .unresolvedVariableError) ∧
    (∀ (own : ModelInst) (refs : List ModelInst) (s : String)
        (m1 m2 : ModelInst) (rest : List ModelInst),
        own.declares s = false →
        resolveCandidates refs s none = m1 :: m2 :: rest →
        resolve own refs s none = .error .ambiguousVariableError) ∧
    (resolve aircraftInst componentInsts ("W") none
        = .error .ambiguousVariableError) ∧
    (resolve aircraftInst componentInsts ("W") (some batteryPath)
        = .ok ⟨batteryPath, "W"⟩) ∧
    (resolve aircraftInst componentInsts ("zz") none
        = .error .unresolvedVariableError) := by
  refine ⟨?_, ?_, by decide, by decide, by decide⟩
  · intro own refs s h1 h2
    simp [resolve, h1, h2]
  · intro own refs s m1 m2 rest h1 h2
    simp [resolve, h1, h2]

/-- Claim C4 witness: the general failure cases applied to the
aircraft's component list: an unknown symbol is unresolved and the
shared component symbol "W" is ambiguous. -/
theorem claim4_witness :
    (resolve aircraftInst componentInsts ("no_such") none
        = .error .unresolvedVariableError) ∧
    (resolve (⟨["m"], []⟩ : ModelInst)
        [⟨["m", "left"], [⟨"W", none⟩]⟩, ⟨["m", "right"], [⟨"W", none⟩]⟩]
        ("W") none
        = .error .ambiguousVariableError) :=
  ⟨claim4_theorem.1 aircraftInst componentInsts ("no_such")
      (by decide) (by decide),
   claim4_theorem.2.1 ⟨["m"], []⟩ _ ("W") ⟨["m", "left"], [⟨"W", none⟩]⟩
      ⟨["m", "right"], [⟨"W", none⟩]⟩ [] (by decide) (by decide)⟩

set_option maxRecDepth 100000 in
/-- Claim C5: a substitution table containing an entry whose target is
absent from the flattened set or already fixed at build time makes
apply_substitutions fail with SubstitutionTargetError and leaves the
caller's constraint set unmodified; the source's own table (the four
hover disk loadings, free and present) is accepted; and two concrete bad
tables (an absent target; the build-time-fixed gravity constant) are
rejected. -/
theorem claim5_theorem :
    (∀ (insts : List ModelInst) (flat : List Constraint)
        (table : List SubstEntry),
        (∃ e ∈ table, occursIn flat e.target = false ∨
            isFreeVar insts e.target = false) →
        (∃ v, apply_substitutions insts flat table
            = .error (.substitutionTargetError v)) ∧
          applyOrKeep insts flat table = flat) ∧
    ((apply_substitutions (problemInsts ("FAA")) (sizingFlat ("FAA"))
        mainTable).isOk = true) ∧
    (apply_substitutions (problemInsts ("FAA")) (sizingFlat ("FAA"))
        [⟨⟨sizingPath, "no_such"⟩, 1⟩]
      = .error (.substitutionTargetError ⟨sizingPath, "no_such"⟩)) ∧
    (apply_substitutions (problemInsts ("FAA")) (problemFlat ("FAA"))
        [⟨⟨aircraftPath, "g"⟩, 1⟩]
      = .error (.substitutionTargetError ⟨aircraftPath, "g"⟩)) := by
  refine ⟨?_, by decide, by decide, by decide⟩
  intro insts flat table
  induction table generalizing flat with
  | nil =>
      rintro ⟨e, he, -⟩
      exact absurd he (List.not_mem_nil e)
  | cons e0 rest ih =>
      rintro ⟨e, he, hbad⟩
      by_cases hc : (occursIn flat e0.target && isFreeVar insts e0.target)
          = true
      · have h1 : occursIn flat e0.target = true :=
          (Bool.and_eq_true _ _).mp hc |>.1
        have h2 : isFreeVar insts e0.target = true :=
          (Bool.and_eq_true _ _).mp hc |>.2
        have hstep : apply_substitutions insts flat (e0 :: rest)
            = apply_substitutions insts (substFlat flat e0) rest := by
          simp only [apply_substitutions]
          rw [if_pos hc]
        have he2 : e ∈ rest := by
          rcases List.mem_cons.mp he with rfl | h
          · rcases hbad with hb | hb
            · rw [h1] at hb; exact absurd hb (by simp)
            · rw [h2] at hb; exact absurd hb (by simp)
          · exact h
        have hbad2 : occursIn (substFlat flat e0) e.target = false ∨
            isFreeVar insts e.target = false := by
          rcases hbad with hb | hb
          · exact Or.inl (occursIn_substFlat _ _ _ hb)
          · exact Or.inr hb
        obtain ⟨⟨v, hv⟩, -⟩ := ih (substFlat flat e0) ⟨e, he2, hbad2⟩
        refine ⟨⟨v, by rw [hstep]; exact hv⟩, ?_⟩
        unfold applyOrKeep
        rw [hstep, hv]
      · have hstep : apply_substitutions insts flat (e0 :: rest)
            = .error (.substitutionTargetError e0.target) := by
          simp only [apply_substitutions]
          rw [if_neg hc]
        exact ⟨⟨e0.target, hstep⟩, by unfold applyOrKeep; rw [hstep]⟩

set_option maxRecDepth 100000 in
/-- Claim C5 witness: the general rejection statement applied to a
concrete table whose single entry targets a variable absent from the
sizing mission's flattened set: the application errors and the set is
kept unmodified. -/
theorem claim5_witness :
    (∃ v, apply_substitutions (problemInsts ("FAA")) (sizingFlat ("FAA"))
        [⟨⟨sizingPath, "no_such"⟩, 1⟩]
        = .error (.substitutionTargetError v)) ∧
      applyOrKeep (problemInsts ("FAA")) (sizingFlat ("FAA"))
        [⟨⟨sizingPath, "no_such"⟩, 1⟩] = sizingFlat ("FAA") :=
  claim5_theorem.1 _ _ _
    ⟨⟨⟨sizingPath, "no_such"⟩, 1⟩, by decide, Or.inl (by decide)⟩



set_option maxRecDepth 100000 in
/-- Claim C8: the battery's build adds C_eff == usable_energy_fraction
* C, the fraction is a build parameter defaulting to 0.8 and is fixed at
0.8 in the built battery; the aircraft links its own C_eff to the
battery's; both missions' energy budgets are checked against C_eff; so
under any assignment respecting the fixed fraction and satisfying those
constraints, each mission's total segment energy is at most 80 percent
of the nominal battery capacity C. -/
theorem claim8_theorem :
    Battery_default_usable_energy_fraction = 4/5 ∧
    (⟨"usable_energy_fraction", some Battery_default_usable_energy_fraction⟩
        : VarDecl) ∈ batteryInst.vars ∧
    batteryCeffCon ∈ aircraftFlat ∧
    aircraftCeffLink ∈ aircraftFlat ∧
    sizingEnergyCon ∈ sizingFlat ("FAA") ∧
    typicalEnergyCon ∈ typicalFlat ∧
    (∀ env : VarId → ℝ,
        env ⟨batteryPath, "usable_energy_fraction"⟩ = 4/5 →
        batteryCeffCon.sat env → aircraftCeffLink.sat env →
        ((sizingEnergyCon.sat env →
            (sizingSegPaths.map fun p => env ⟨p, "E"⟩).sum
              ≤ (4/5) * env ⟨batteryPath, "C"⟩) ∧
         (typicalEnergyCon.sat env →
            (typicalSegPaths.map fun p => env ⟨p, "E"⟩).sum
              ≤ (4/5) * env ⟨batteryPath, "C"⟩))) := by
  refine ⟨rfl, by simp [batteryInst, Battery_vars], by decide, by decide,
    by decide, by decide, ?_⟩
  intro env hf h1 h2
  have h1b : env ⟨batteryPath, "C_{eff}"⟩
      = env ⟨batteryPath, "usable_energy_fraction"⟩
          * env ⟨batteryPath, "C"⟩ := h1
  have h2b : env ⟨aircraftPath, "C_{eff}"⟩
      = env ⟨batteryPath, "C_{eff}"⟩ := h2
  constructor
  · intro hs
    have hs2 : (segmentEnergySum sizingSegPaths).eval env
        ≤ env ⟨aircraftPath, "C_{eff}"⟩ := hs
    rw [eval_segmentEnergySum] at hs2
    rw [h2b, h1b, hf] at hs2
    exact hs2
  · intro hs
    have hs2 : (segmentEnergySum typicalSegPaths).eval env
        ≤ env ⟨aircraftPath, "C_{eff}"⟩ := hs
    rw [eval_segmentEnergySum] at hs2
    rw [h2b, h1b, hf] at hs2
    exact hs2

/-- Claim C8 witness: the semantic part applied to a concrete
assignment (capacity 5, effective capacity 4, fraction 4/5, segment
energies 1/2): the sizing mission's total energy 3 is at most 4/5 of 5. -/
theorem claim8_witness :
    (sizingSegPaths.map fun p => wEnv8 ⟨p, "E"⟩).sum
      ≤ (4/5) * wEnv8 ⟨batteryPath, "C"⟩ :=
  (claim8_theorem.2.2.2.2.2.2 wEnv8 (by simp [wEnv8])
    (by simp [Constraint.sat, CmpOp.holds, Expr.eval, batteryCeffCon, wEnv8])
    (by simp [Constraint.sat, CmpOp.holds, Expr.eval, aircraftCeffLink,
        wEnv8])).1
    (by simp [Constraint.sat, CmpOp.holds, Expr.eval, sizingEnergyCon, wEnv8]
        norm_num)

set_option maxRecDepth 100000 in
/-- Claim C9: every flight segment of both missions carries the battery
performance constraint P <= P_{max}, the battery constrains P_{max} ==
P_m * m, and consequently under any assignment satisfying the two
constraints the segment's battery power draw is at most the battery's
power density times its mass. -/
theorem claim9_theorem :
    (∀ p ∈ sizingSegPaths, segPCon p ∈ sizingFlat ("FAA")) ∧
    (∀ p ∈ typicalSegPaths, segPCon p ∈ typicalFlat) ∧
    pmaxDefCon ∈ aircraftFlat ∧
    (∀ (env : VarId → ℝ) (p : MPath),
        (segPCon p).sat env → pmaxDefCon.sat env →
        env ⟨batteryPerfPath p, "P"⟩
          ≤ env ⟨batteryPath, "P_m"⟩ * env ⟨batteryPath, "m"⟩) := by
  refine ⟨by decide, by decide, by decide, ?_⟩
  intro env p h1 h2
  have h1b : env ⟨batteryPerfPath p, "P"⟩
      ≤ env ⟨batteryPath, "P_{max}"⟩ := h1
  have h2b : env ⟨batteryPath, "P_{max}"⟩
      = env ⟨batteryPath, "P_m"⟩ * env ⟨batteryPath, "m"⟩ := h2
  rw [← h2b]
  exact h1b

set_option maxRecDepth 100000 in
/-- Claim C9 witness: the membership part at the takeoff hover segment
and the semantic part at the all-ones assignment. -/
theorem claim9_witness :
    segPCon fs0Path ∈ sizingFlat ("FAA") ∧
      wEnvOne ⟨batteryPerfPath fs0Path, "P"⟩
        ≤ wEnvOne ⟨batteryPath, "P_m"⟩ * wEnvOne ⟨batteryPath, "m"⟩ :=
  ⟨claim9_theorem.1 fs0Path (by decide),
   claim9_theorem.2.2.2 wEnvOne fs0Path
     (by simp [Constraint.sat, CmpOp.holds, Expr.eval, segPCon, wEnvOne])
     (by simp [Constraint.sat, CmpOp.holds, Expr.eval, pmaxDefCon, wEnvOne])⟩

set_option maxRecDepth 100000 in
/-- Claim C10: the rotor weight and the power-system weight are declared
fixed at 0 lbf; the aircraft's no-passenger weight constraint bounds the
five-component weight sum; and under any assignment respecting the two
zero weights that constraint holds exactly when W_{noPassengers} bounds
the battery, crew and structure weights alone. -/
theorem claim10_theorem :
    (⟨"W", some 0⟩ : VarDecl) ∈ rotorsInst.vars ∧
    (⟨"W", some 0⟩ : VarDecl) ∈ powerSystemInst.vars ∧
    aircraftWeightCon ∈ aircraftFlat ∧
    (∀ env : VarId → ℝ,
        env ⟨rotorsPath, "W"⟩ = 0 → env ⟨powerSystemPath, "W"⟩ = 0 →
        (aircraftWeightCon.sat env ↔
          env ⟨batteryPath, "W"⟩ + env ⟨crewPath, "W"⟩
              + env ⟨structurePath, "W"⟩
            ≤ env ⟨aircraftPath, "W_{noPassengers}"⟩)) := by
  refine ⟨by decide, by decide, by decide, ?_⟩
  intro env h1 h2
  have h : aircraftWeightCon.sat env ↔
      env ⟨rotorsPath, "W"⟩ + env ⟨batteryPath, "W"⟩ + env ⟨crewPath, "W"⟩
          + env ⟨structurePath, "W"⟩ + env ⟨powerSystemPath, "W"⟩
        ≤ env ⟨aircraftPath, "W_{noPassengers}"⟩ := Iff.rfl
  rw [h, h1, h2]
  constructor <;> intro hle <;> linarith

/-- Claim C10 witness: the equivalence applied to the assignment with
every weight variable zero and everything else one. -/
theorem claim10_witness :
    wEnv10 ⟨rotorsPath, "W"⟩ = 0 ∧
      (aircraftWeightCon.sat wEnv10 ↔
        wEnv10 ⟨batteryPath, "W"⟩ + wEnv10 ⟨crewPath, "W"⟩
            + wEnv10 ⟨structurePath, "W"⟩
          ≤ wEnv10 ⟨aircraftPath, "W_{noPassengers}"⟩) :=
  ⟨by simp [wEnv10],
   claim10_theorem.2.2.2 wEnv10 (by simp [wEnv10]) (by simp [wEnv10])⟩


end EVTOL
